import Mathlib

/-
Verification of the EventSystem repository
(src/ConsoleApplication1/ConsoleApplication1.cpp).

The file shallowly embeds the two core classes:

* `EventHandler<Args...>` (lines 9-66): a callback wrapper with a
  process-unique id. The callback value `std::function<void(Args...)>`
  is modelled as `Option Nat`: `none` is the empty function object and
  `some k` is a non-empty callback identified by an opaque key `k`.
  The behaviour of a callback (its re-entrant mutations of the
  dispatcher and whether it throws) is supplied externally through an
  environment, keyed by `k`.

* `Event<Args...>` (lines 71-200): the dispatcher. Its externally
  visible state is the ordered handler sequence `std::list<HandlerType>`,
  modelled as `List EventHandler`. The mutex serialises sequence access;
  operations on the sequence are therefore modelled as atomic functions
  on the list, and the lock-acquisition structure of copy/move is
  modelled separately as explicit acquisition sequences.

Machine arithmetic: `handlerIdCounter` is a `std::atomic_uint`
(32-bit unsigned); increments are taken modulo `2 ^ 32`.
-/

namespace EventSystem

/-- Modulus of the 32-bit unsigned counter type `std::atomic_uint`. -/
def UINT_MOD : Nat := 2 ^ 32

/-- EventHandler (source lines 9-66): a callback plus an id. The field
order mirrors the class layout: public `functionHandler`, then private
`handlerId`. -/
structure EventHandler where
  functionHandler : Option Nat
  handlerId : Nat
deriving DecidableEq, Repr

/-- The primary constructor (lines 18-22): stores the callback and
assigns `handlerId = ++handlerIdCounter`, the pre-incremented value of
the shared atomic counter, reduced modulo the unsigned word size.
Returns the new handler and the new counter value. -/
def constructHandler (cb : Option Nat) (counter : Nat) : EventHandler × Nat :=
  let c := (counter + 1) % UINT_MOD
  ({ functionHandler := cb, handlerId := c }, c)

/-- Counter value after `n` constructions. The counter starts at 0
(line 69); each construction performs one atomic pre-increment, and
atomicity totally orders the increments, so a process-wide history of
`n` constructions is a sequence of `n` increments. -/
def counterAfter : Nat → Nat
  | 0 => 0
  | n + 1 => (constructHandler none (counterAfter n)).2

/-- Identity assigned by the k-th construction in the process
(0-indexed): the handler built when the counter holds `counterAfter k`. -/
def idOfConstruction (k : Nat) : Nat :=
  (constructHandler none (counterAfter k)).1.handlerId

theorem counterAfter_eq (n : Nat) : counterAfter n = n % UINT_MOD := by
  induction n with
  | zero => rfl
  | succ n ih =>
    simp only [counterAfter, constructHandler, ih, UINT_MOD]
    omega

theorem idOfConstruction_eq (k : Nat) : idOfConstruction k = (k + 1) % UINT_MOD := by
  simp only [idOfConstruction, constructHandler, counterAfter_eq, UINT_MOD]
  omega

/-- C2: identities are strictly increasing in construction order (hence
pairwise distinct), for any two constructions in a process history short
enough that the 32-bit counter has not wrapped; identity exhaustion is
out of scope per the specification. Atomic pre-increment serialises
concurrent constructions into this history. -/
theorem C2_identity_strict_mono (i j : Nat) (hij : i < j) (hj : j + 1 < UINT_MOD) :
    idOfConstruction i < idOfConstruction j ∧ idOfConstruction i ≠ idOfConstruction j := by
  rw [idOfConstruction_eq, idOfConstruction_eq]
  rw [Nat.mod_eq_of_lt (by omega), Nat.mod_eq_of_lt hj]
  omega

theorem C2_identity_strict_mono_witness :
    0 < 1 ∧ 1 + 1 < UINT_MOD ∧ idOfConstruction 0 < idOfConstruction 1 :=
  ⟨by decide, by decide,
    (C2_identity_strict_mono 0 1 (by decide) (by decide)).1⟩

/-- C10: the first constructed handler has identity 1, and every
identity assigned before the counter wraps is at least 1, so 0 is never
an assigned identity in that range. -/
theorem C10_ids_start_at_one (k : Nat) (hk : k + 1 < UINT_MOD) :
    idOfConstruction 0 = 1 ∧ 1 ≤ idOfConstruction k ∧ idOfConstruction k ≠ 0 := by
  rw [idOfConstruction_eq, idOfConstruction_eq, Nat.mod_eq_of_lt hk]
  refine ⟨by norm_num [UINT_MOD], by omega, by omega⟩

theorem C10_ids_start_at_one_witness :
    5 + 1 < UINT_MOD ∧ idOfConstruction 0 = 1 ∧ idOfConstruction 5 ≠ 0 :=
  ⟨by decide, (C10_ids_start_at_one 5 (by decide)).1,
    (C10_ids_start_at_one 5 (by decide)).2.2⟩

/-- Copy constructor (lines 24-26): duplicates callback and id; the
source is untouched. Result: (new object, source afterwards). -/
def copyCtor (other : EventHandler) : EventHandler × EventHandler :=
  ({ functionHandler := other.functionHandler, handlerId := other.handlerId }, other)

/-- Move constructor (lines 28-30): `std::move` takes the callback out
of the source (the moved-from `std::function` is left empty) and the id
is copied, so the source keeps its id. Result: (new object, source
afterwards). -/
def moveCtor (other : EventHandler) : EventHandler × EventHandler :=
  ({ functionHandler := other.functionHandler, handlerId := other.handlerId },
   { functionHandler := none, handlerId := other.handlerId })

/-- Copy assignment (lines 32-37): copies id and callback from the
source; the source is untouched. Result: (destination afterwards,
source afterwards). -/
def copyAssign (self other : EventHandler) : EventHandler × EventHandler :=
  ({ functionHandler := other.functionHandler, handlerId := other.handlerId }, other)

/-- Move assignment (lines 39-44): `std::swap(functionHandler,
other.functionHandler)` exchanges the two callbacks, then `handlerId =
other.handlerId`. The source therefore ends up holding the previous
callback of the destination, and keeps its own id. Result:
(destination afterwards, source afterwards). -/
def moveAssign (self other : EventHandler) : EventHandler × EventHandler :=
  ({ functionHandler := other.functionHandler, handlerId := other.handlerId },
   { functionHandler := self.functionHandler, handlerId := other.handlerId })

/-- C5 counterexample: move-assigning handler 1 (callback 7) into a
destination whose previous callback 8 is non-empty leaves the source
holding callback 8, not an empty callback, contradicting the claim that
a move always leaves the source callback empty. -/
theorem C5_move_counterexample :
    ((moveAssign { functionHandler := some 8, handlerId := 2 }
        { functionHandler := some 7, handlerId := 1 }).2).functionHandler ≠ none := by
  decide

/-- C5 amended: move construction transfers the callback and leaves the
source empty with its id intact; move assignment swaps callbacks, so the
source ends with the previous callback of the destination (empty only if
that one was empty) and keeps its id; copy construction and copy
assignment duplicate callback and id and leave the source untouched. -/
theorem C5_move_copy_semantics (a b : EventHandler) :
    ((moveCtor a).1.functionHandler = a.functionHandler ∧
      (moveCtor a).1.handlerId = a.handlerId ∧
      (moveCtor a).2.functionHandler = none ∧
      (moveCtor a).2.handlerId = a.handlerId) ∧
    ((moveAssign b a).1.functionHandler = a.functionHandler ∧
      (moveAssign b a).1.handlerId = a.handlerId ∧
      (moveAssign b a).2.functionHandler = b.functionHandler ∧
      (moveAssign b a).2.handlerId = a.handlerId) ∧
    ((copyCtor a).1 = { functionHandler := a.functionHandler, handlerId := a.handlerId } ∧
      (copyCtor a).2 = a) ∧
    ((copyAssign b a).1 = { functionHandler := a.functionHandler, handlerId := a.handlerId } ∧
      (copyAssign b a).2 = a) := by
  simp [moveCtor, moveAssign, copyCtor, copyAssign]

/-- Equality operator (lines 46-49): compares only the ids. -/
def operatorEq (a b : EventHandler) : Bool :=
  a.handlerId == b.handlerId

/-- C8: two handlers compare equal exactly when their ids are equal,
whatever the callbacks are; in particular a copy compares equal to its
original. -/
theorem C8_equality_iff_identity (a b : EventHandler) :
    (operatorEq a b = true ↔ a.handlerId = b.handlerId) ∧
    operatorEq (copyCtor a).1 a = true := by
  constructor
  · simp [operatorEq]
  · simp [operatorEq, copyCtor]

/-- The handler sequence of the dispatcher: `std::list<HandlerType>
handlers` (line 199), insertion order preserved. -/
abbrev HandlerCollection := List EventHandler

/-- Add (lines 109-115): under the lock, appends a copy of the handler
at the back and returns its id. -/
def Add (handlers : HandlerCollection) (h : EventHandler) : HandlerCollection × Nat :=
  (handlers ++ [h], h.handlerId)

/-- RemoveId (lines 136-147): under the lock, `std::find_if` locates the
first entry whose id equals `handlerId`; if found it is erased and the
call returns true, otherwise the sequence is untouched and the call
returns false. -/
def RemoveId (handlers : HandlerCollection) (handlerId : Nat) : HandlerCollection × Bool :=
  match handlers with
  | [] => ([], false)
  | h :: rest =>
    if h.handlerId = handlerId then (rest, true)
    else
      let r := RemoveId rest handlerId
      (h :: r.1, r.2)

/-- C3: removing a present identity returns true, shrinks the sequence
by exactly one, and deletes exactly the first entry carrying that
identity; removing an absent identity returns false and leaves the
sequence unchanged. -/
theorem C3_removeId_first_match (handlers : HandlerCollection) (hid : Nat) :
    (hid ∈ handlers.map EventHandler.handlerId →
      (RemoveId handlers hid).2 = true ∧
      (RemoveId handlers hid).1.length + 1 = handlers.length ∧
      ∃ pre h post, handlers = pre ++ h :: post ∧ h.handlerId = hid ∧
        (∀ x ∈ pre, x.handlerId ≠ hid) ∧ (RemoveId handlers hid).1 = pre ++ post) ∧
    (hid ∉ handlers.map EventHandler.handlerId →
      (RemoveId handlers hid).2 = false ∧ (RemoveId handlers hid).1 = handlers) := by
  induction handlers with
  | nil => exact ⟨by simp, fun _ => ⟨rfl, rfl⟩⟩
  | cons h rest ih =>
    by_cases hc : h.handlerId = hid
    · refine ⟨fun _ => ?_, fun habs => absurd (by simp [hc]) habs⟩
      refine ⟨by simp [RemoveId, hc], by simp [RemoveId, hc], [], h, rest, ?_⟩
      simp [RemoveId, hc]
    · constructor
      · intro hmem
        have hmem2 : hid ∈ rest.map EventHandler.handlerId := by
          rcases List.mem_cons.mp hmem with h1 | h1
          · exact absurd h1.symm hc
          · exact h1
        obtain ⟨htrue, hlen, pre, x, post, hsplit, hx, hpre, hres⟩ := ih.1 hmem2
        refine ⟨by simp [RemoveId, hc, htrue], by simp [RemoveId, hc]; omega,
          h :: pre, x, post, by simp [hsplit], hx, ?_, by simp [RemoveId, hc, hres]⟩
        intro y hy
        rcases List.mem_cons.mp hy with h1 | h1
        · rw [h1]; exact hc
        · exact hpre y h1
      · intro habs
        have habs2 : hid ∉ rest.map EventHandler.handlerId := fun hmem =>
          habs (by simp [hmem])
        obtain ⟨hfalse, hres⟩ := ih.2 habs2
        exact ⟨by simp [RemoveId, hc, hfalse], by simp [RemoveId, hc, hres]⟩

theorem C3_removeId_first_match_witness :
    (2 ∈ ([{ functionHandler := none, handlerId := 1 },
           { functionHandler := none, handlerId := 2 }] : HandlerCollection).map
             EventHandler.handlerId) ∧
    (RemoveId [{ functionHandler := none, handlerId := 1 },
               { functionHandler := none, handlerId := 2 }] 2).2 = true ∧
    (RemoveId [{ functionHandler := none, handlerId := 1 },
               { functionHandler := none, handlerId := 2 }] 5).1 =
      [{ functionHandler := none, handlerId := 1 },
       { functionHandler := none, handlerId := 2 }] :=
  ⟨by decide,
   ((C3_removeId_first_match [{ functionHandler := none, handlerId := 1 },
      { functionHandler := none, handlerId := 2 }] 2).1 (by decide)).1,
   ((C3_removeId_first_match [{ functionHandler := none, handlerId := 1 },
      { functionHandler := none, handlerId := 2 }] 5).2 (by decide)).2⟩

/-- Behaviour of the callbacks, supplied externally and keyed by the
callback key stored in `functionHandler`. Running callback `k` in
dispatcher state `st` yields the state after any Add/Remove calls the
callback performs on the same dispatcher (or that other threads perform
while it runs), together with `some e` when the callback throws
exception `e` and `none` when it returns normally. -/
abbrev Env := Nat → HandlerCollection → HandlerCollection × Option Nat

/-- CallImpl (lines 184-190): iterates over the snapshot in order and
applies `handler(params...)` to each entry. `EventHandler::operator()`
(lines 51-57) runs the callback only when `functionHandler` is
non-empty. The loop body contains no try/catch, so a thrown exception
ends the loop and propagates. Returns the ids of the handlers reached by
the loop, the dispatcher state after the callback effects, and the
propagated exception, if any. -/
def CallImpl (env : Env) :
    HandlerCollection → HandlerCollection → List Nat × HandlerCollection × Option Nat
  | [], state => ([], state, none)
  | h :: rest, state =>
    match h.functionHandler with
    | none =>
      let r := CallImpl env rest state
      (h.handlerId :: r.1, r.2)
    | some k =>
      match env k state with
      | (state2, some e) => ([h.handlerId], state2, some e)
      | (state2, none) =>
        let r := CallImpl env rest state2
        (h.handlerId :: r.1, r.2)

/-- GetHandlersCopy (lines 192-196): under the lock, returns a copy of
the current handler sequence. -/
def GetHandlersCopy (handlers : HandlerCollection) : HandlerCollection :=
  handlers

/-- Call (lines 149-154): takes the locked snapshot copy, then runs the
invocation loop outside the lock; the loop iterates over the snapshot
while the live sequence may be mutated by the callbacks. -/
def Call (env : Env) (handlers : HandlerCollection) :
    List Nat × HandlerCollection × Option Nat :=
  CallImpl env (GetHandlersCopy handlers) handlers

theorem CallImpl_fst_of_noerror (env : Env)
    (hnoerr : ∀ k st, (env k st).2 = none) :
    ∀ snap state : HandlerCollection,
      (CallImpl env snap state).1 = snap.map EventHandler.handlerId := by
  intro snap
  induction snap with
  | nil => intro state; rfl
  | cons h rest ih =>
    intro state
    cases hfh : h.functionHandler with
    | none => simp [CallImpl, hfh, ih]
    | some k =>
      rcases henv : env k state with ⟨state2, err⟩
      have : err = none := by
        have := hnoerr k state
        rw [henv] at this
        exact this
      subst this
      simp [CallImpl, hfh, henv, ih]

theorem CallImpl_state_of_pure (env : Env)
    (hpure : ∀ k st, env k st = (st, none)) :
    ∀ snap state : HandlerCollection,
      (CallImpl env snap state).2.1 = state := by
  intro snap
  induction snap with
  | nil => intro state; rfl
  | cons h rest ih =>
    intro state
    cases hfh : h.functionHandler with
    | none => simp [CallImpl, hfh, ih]
    | some k => simp [CallImpl, hfh, hpure k state, ih]

/-- C1: whatever Add/Remove mutations the callbacks (or other threads)
perform while the loop runs, a Call that completes without an exception
invokes exactly the handlers present at the instant the snapshot was
taken, in their sequence order; in particular a handler registered
during the call is not invoked by it. -/
theorem C1_snapshot_isolation (env : Env) (handlers : HandlerCollection)
    (hnoerr : ∀ k st, (env k st).2 = none) :
    (Call env handlers).1 = handlers.map EventHandler.handlerId := by
  exact CallImpl_fst_of_noerror env hnoerr (GetHandlersCopy handlers) handlers

/-- C1 witness: two registered handlers; the running callback with key 5
appends a fresh handler with id 99 to the live sequence, yet only ids
1 and 2 are invoked by this call. -/
theorem C1_snapshot_isolation_witness :
    (Call (fun k st =>
        ((Add st { functionHandler := none, handlerId := 99 }).1, none))
      [{ functionHandler := some 5, handlerId := 1 },
       { functionHandler := none, handlerId := 2 }]).1 = [1, 2] := by
  have h := C1_snapshot_isolation
    (fun k st => ((Add st { functionHandler := none, handlerId := 99 }).1, none))
    [{ functionHandler := some 5, handlerId := 1 },
     { functionHandler := none, handlerId := 2 }]
    (fun k st => rfl)
  simpa using h

/-- C9: Call itself never mutates the handler sequence; when the
callbacks perform no Add/Remove and no other thread mutates the
dispatcher, the sequence after the call is the sequence before it. -/
theorem C9_call_is_pure_read (env : Env) (handlers : HandlerCollection)
    (hpure : ∀ k st, env k st = (st, none)) :
    (Call env handlers).2.1 = handlers := by
  exact CallImpl_state_of_pure env hpure (GetHandlersCopy handlers) handlers

theorem C9_call_is_pure_read_witness :
    (Call (fun _ st => (st, none))
      [{ functionHandler := some 5, handlerId := 1 },
       { functionHandler := none, handlerId := 2 }]).2.1 =
      [{ functionHandler := some 5, handlerId := 1 },
       { functionHandler := none, handlerId := 2 }] :=
  C9_call_is_pure_read (fun _ st => (st, none))
    [{ functionHandler := some 5, handlerId := 1 },
     { functionHandler := none, handlerId := 2 }]
    (fun _ _ => rfl)

theorem CallImpl_error_cut (env : Env) (h : EventHandler)
    (post : HandlerCollection) (k e : Nat)
    (hcb : h.functionHandler = some k)
    (herr : ∀ st, (env k st).2 = some e) :
    ∀ pre state : HandlerCollection,
      (∀ x ∈ pre, ∀ k2, x.functionHandler = some k2 → ∀ st, (env k2 st).2 = none) →
      (CallImpl env (pre ++ h :: post) state).1 =
        (pre ++ [h]).map EventHandler.handlerId ∧
      (CallImpl env (pre ++ h :: post) state).2.2 = some e := by
  intro pre
  induction pre with
  | nil =>
    intro state _
    rcases henv : env k state with ⟨state2, err⟩
    have herr2 : err = some e := by
      have := herr state
      rw [henv] at this
      exact this
    subst herr2
    simp [CallImpl, hcb, henv]
  | cons x xs ih =>
    intro state hpre
    have hxs : ∀ y ∈ xs, ∀ k2, y.functionHandler = some k2 →
        ∀ st, (env k2 st).2 = none :=
      fun y hy => hpre y (List.mem_cons_of_mem x hy)
    cases hfx : x.functionHandler with
    | none =>
      have := ih state hxs
      simp [CallImpl, hfx, this.1, this.2]
    | some k2 =>
      rcases henv : env k2 state with ⟨state2, err⟩
      have herr2 : err = none := by
        have := hpre x (List.mem_cons_self x xs) k2 hfx state
        rw [henv] at this
        exact this
      subst herr2
      have := ih state2 hxs
      simp [CallImpl, hfx, henv, this.1, this.2]

/-- C4: when the callback of a handler in the snapshot throws, the
exception reaches the caller of Call unchanged, the handlers before the
failing one and the failing one itself are invoked in order, and the
handlers after it in the snapshot are not invoked by that call. -/
theorem C4_exception_fail_fast (env : Env) (pre post : HandlerCollection)
    (h : EventHandler) (k e : Nat)
    (hcb : h.functionHandler = some k)
    (herr : ∀ st, (env k st).2 = some e)
    (hpre : ∀ x ∈ pre, ∀ k2, x.functionHandler = some k2 →
      ∀ st, (env k2 st).2 = none) :
    (Call env (pre ++ h :: post)).1 = (pre ++ [h]).map EventHandler.handlerId ∧
    (Call env (pre ++ h :: post)).2.2 = some e := by
  exact CallImpl_error_cut env h post k e hcb herr pre (pre ++ h :: post) hpre

/-- Environment for the C4 witness: callback 9 throws exception 42,
every other callback returns normally; none of them mutates the
sequence. -/
def envC4 : Env :=
  fun k st => (st, if k = 9 then some 42 else none)

theorem C4_exception_fail_fast_witness :
    (Call envC4
      [{ functionHandler := some 1, handlerId := 1 },
       { functionHandler := some 9, handlerId := 2 },
       { functionHandler := some 1, handlerId := 3 }]).1 = [1, 2] ∧
    (Call envC4
      [{ functionHandler := some 1, handlerId := 1 },
       { functionHandler := some 9, handlerId := 2 },
       { functionHandler := some 1, handlerId := 3 }]).2.2 = some 42 := by
  have h := C4_exception_fail_fast envC4
    [{ functionHandler := some 1, handlerId := 1 }]
    [{ functionHandler := some 1, handlerId := 3 }]
    { functionHandler := some 9, handlerId := 2 } 9 42 rfl
    (fun st => rfl)
    (by
      intro x hx k2 hk2 st
      rw [List.mem_singleton] at hx
      subst hx
      simp only at hk2
      rcases hk2 with rfl | h2
      · rfl)
  simpa using h

/-
Lock-acquisition model for copy and move of Event. Each Event instance
owns one mutex `m_handlersLocker`; instances are named by Nat. For each
operation, the list records which mutexes its body acquires, in program
order, with `dst` the object being constructed or assigned to and `src`
the other object.
-/

/-- Copy constructor of Event (lines 79-83): the body locks only
`m_handlersLocker` of the object under construction and reads
`other.handlers` without the lock of `other`. -/
def copyCtorLockSeq (dst src : Nat) : List Nat :=
  [dst]

/-- Move constructor of Event (lines 85-89): likewise locks only the
mutex of the object under construction. -/
def moveCtorLockSeq (dst src : Nat) : List Nat :=
  [dst]

/-- Copy assignment of Event (lines 91-97): locks the mutex of the
destination first, then the mutex of the source. -/
def copyAssignLockSeq (dst src : Nat) : List Nat :=
  [dst, src]

/-- Move assignment of Event (lines 99-107): same order, destination
mutex first, then source mutex. -/
def moveAssignLockSeq (dst src : Nat) : List Nat :=
  [dst, src]

/-- Whether the sequence acquires mutex `x` strictly before mutex `y`. -/
def acquiresBefore (l : List Nat) (x y : Nat) : Bool :=
  l.contains x && l.contains y && l.indexOf x < l.indexOf y

/-- Two concurrently running operations can reach a circular wait (each
holding one mutex the other needs) exactly when some pair of distinct
mutexes is acquired in opposite orders by the two sequences. -/
def canDeadlock (l1 l2 : List Nat) : Bool :=
  l1.any fun x => l1.any fun y =>
    x != y && acquiresBefore l1 x y && acquiresBefore l2 y x

/-- C6 evaluation on events 1 and 2: the copy and move constructors do
not acquire the mutex of the source at all, and the two assignment lock
orders for `a = b` run by one thread and `b = a` run by another acquire
the two mutexes in opposite orders, so a circular wait is reachable.
Both facts contradict the claim of both-lock holding in a fixed global
order. -/
theorem C6_locking_deadlock_bug :
    (copyCtorLockSeq 1 2).contains 2 = false ∧
    (moveCtorLockSeq 1 2).contains 2 = false ∧
    canDeadlock (copyAssignLockSeq 1 2) (copyAssignLockSeq 2 1) = true ∧
    canDeadlock (moveAssignLockSeq 1 2) (moveAssignLockSeq 2 1) = true := by
  decide

/-
Name-resolution model for CallAsync (lines 171-177). The lambda body
passed to std::async invokes an unqualified name; C++ name lookup would
resolve it against the members of Event and the enclosing namespace
scope. The names below are transcribed from the source.
-/

/-- Member function names of class Event (lines 71-200). -/
def eventMemberNames : List String :=
  ["Event", "Add", "Remove", "RemoveId", "Call", "CallAsync",
   "CallImpl", "GetHandlersCopy"]

/-- Free function names of the translation unit (lines 202-240),
including the demonstration code. -/
def freeFunctionNames : List String :=
  ["CallMeWhenYouPrint", "main"]

/-- The unqualified name the CallAsync lambda body invokes (line 175). -/
def callAsyncInvokedName : String :=
  "call"

/-- C7 evaluation: the name invoked inside CallAsync matches no member
of Event and no free function of the translation unit (C++ identifiers
are case sensitive), while the intended member `Call` does exist; name
lookup at template instantiation therefore fails and CallAsync cannot
run any snapshot-then-invoke sequence. -/
theorem C7_callAsync_name_bug :
    eventMemberNames.contains callAsyncInvokedName = false ∧
    freeFunctionNames.contains callAsyncInvokedName = false ∧
    eventMemberNames.contains "Call" = true := by
  decide

end EventSystem
